import Mathlib

/-!
Shallow embedding of the authorization / scoped-data-access core of the
blog backend (Express + Supabase), translated from:

* `src/utils/supabaseRls.ts` — the `SupabaseRlsHelper` facade
  (`select` / `insert` / `update` / `delete`) and
  `getAccessTokenFromRequest`;
* `src/middleware/protectAdmin.ts` — the role gate;
* `src/utils/notificationHelper.ts` — `createNotification`;
* `src/routes/likes.ts` — the `POST /likes/:postId` toggle handler.

Modelling conventions, applied throughout:

* JavaScript runtime values that flow through filters and rows are modelled
  by `Scalar` (null / boolean / number / string) and `JsonVal`
  (a scalar or an array of scalars); JS numbers are modelled as `Int`
  (`NaN` and fractional values are outside the model).
* A database row is an association list from column names to scalars; a
  table is a list of rows.  Row-level-security visibility is folded into
  the state: a table value contains exactly the rows the bound credential
  can see and write, so "policy-hidden" and "absent" coincide, as they do
  from the client's point of view.
* The Supabase/PostgREST client is external (supabase-js v2); its
  boundary behaviour is modelled where the repository's code depends on
  it: `.eq` / `.in` / `.ilike` filters, `.limit` / `.range` pagination
  (a later `.range` call overrides `.limit`; the store rejects negative
  `limit`/`offset` parameters with an error), and `.single()`, which
  reports an error unless the result set has exactly one row, rolling
  the request back.  In supabase-js v2 `from(table)` exposes only the
  verb methods (`select`/`insert`/`update`/`delete`), not the filter
  methods, so the helper's `delete` — which applies `.eq` before calling
  `.delete()` — throws client-side on every non-empty filter object.
* Thrown JS exceptions are modelled with `Except String`; `.ok` means the
  function returned, `.error` means it threw.
* The like-toggle's post id arrives as a numeric string, is validated with
  `isNaN(Number(postId))` by the route, and is coerced by the store to the
  integer column type; the model therefore uses `Int` post ids uniformly.
* Wall-clock data (the `created_at` timestamp of a notification) is
  outside the model and omitted from the notification row.
-/

deriving instance DecidableEq for Except

/-- Scalar runtime value: JS null, boolean, number (as `Int`) or string. -/
inductive Scalar where
  | sNull
  | sBool (b : Bool)
  | sNum (n : Int)
  | sStr (s : String)
deriving DecidableEq

/-- Value of one entry of a filter object: a scalar or an array of scalars
(`Array.isArray` distinguishes the two in the source). -/
inductive JsonVal where
  | scalar (v : Scalar)
  | arr (xs : List Scalar)
deriving DecidableEq

/-- A database row, as the store returns it: column name ↦ scalar value. -/
abbrev Row := List (String × Scalar)

/-- A filter object, in insertion order (`Object.entries` order). -/
abbrev Filters := List (String × JsonVal)

/-- Read a column of a row (first binding wins, as for a JS object). -/
def rowGet (r : Row) (k : String) : Option Scalar :=
  (r.find? (fun p => p.1 == k)).map (fun p => p.2)

/-- Read a column with a default (models `row.col` being `undefined`,
which the store serialises as null). -/
def rowGetD (r : Row) (k : String) (d : Scalar) : Scalar :=
  (rowGet r k).getD d

/-- Overwrite one column of a row (the effect of an `update` patch entry). -/
def setCell : Row → String → Scalar → Row
  | [], k, v => [(k, v)]
  | (k₀, v₀) :: rest, k, v =>
    if k₀ == k then (k, v) :: rest else (k₀, v₀) :: setCell rest k v

/-- Apply an `update` patch: set each patched column in order. -/
def applyPatch (patch : List (String × Scalar)) (r : Row) : Row :=
  patch.foldl (fun acc kv => setCell acc kv.1 kv.2) r

/-- Split a character list at every occurrence of `c`, keeping empty
fields — the semantics of JS `String.prototype.split` with a one-character
separator (`"a  b".split(" ") = ["a", "", "b"]`, `"".split(" ") = [""]`). -/
def splitCharList (c : Char) : List Char → List (List Char)
  | [] => [[]]
  | x :: xs =>
    match splitCharList c xs with
    | [] => [[]]
    | fld :: rest => if x == c then [] :: fld :: rest else (x :: fld) :: rest

/-- JS `String.prototype.split` with a one-character separator. -/
def jsSplit (c : Char) (s : String) : List String :=
  (splitCharList c s.data).map String.mk

/-- Remove leading and trailing whitespace (JS `String.prototype.trim`). -/
def trimChars (cs : List Char) : List Char :=
  ((cs.dropWhile (fun a => a.isWhitespace)).reverse.dropWhile
    (fun a => a.isWhitespace)).reverse

/-- Does the string contain the wildcard marker `%`
(JS `value.includes('%')`)? -/
def strContainsPct (s : String) : Bool :=
  s.data.contains '%'

/-- SQL `LIKE` pattern matching over character lists: `%` matches any
sequence, `_` any single character, anything else itself. -/
def likeChars : List Char → List Char → Bool
  | [], [] => true
  | [], _ :: _ => false
  | '%' :: ps, [] => likeChars ps []
  | '%' :: ps, t :: ts => likeChars ps (t :: ts) || likeChars ('%' :: ps) ts
  | '_' :: _, [] => false
  | '_' :: ps, _ :: ts => likeChars ps ts
  | _ :: _, [] => false
  | p :: ps, t :: ts => (p == t) && likeChars ps ts
termination_by ps ts => (ps.length, ts.length)

/-- Case-insensitive `LIKE` (`ilike`) at the store boundary. -/
def ilikeMatch (pattern text : String) : Bool :=
  likeChars (pattern.data.map Char.toLower) (text.data.map Char.toLower)

/-- One compiled filter constraint, i.e. one `.in` / `.ilike` / `.eq`
call on the Supabase query builder. -/
inductive FilterOp where
  | opIn (key : String) (vals : List Scalar)
  | opIlike (key : String) (pattern : String)
  | opEq (key : String) (v : JsonVal)
deriving DecidableEq

/-- Classification used by `SupabaseRlsHelper.select`
(`supabaseRls.ts` lines 36–44): an array value becomes a membership test,
a string containing `%` becomes a case-insensitive pattern test,
anything else an equality test. -/
def selectFilterOp (key : String) (v : JsonVal) : FilterOp :=
  match v with
  | .arr xs => .opIn key xs
  | .scalar (.sStr s) => if strContainsPct s then .opIlike key s else .opEq key v
  | .scalar _ => .opEq key v

/-- Classification used by `SupabaseRlsHelper.update`
(`supabaseRls.ts` lines 98–100): every filter entry becomes `query.eq`. -/
def updateFilterOp (key : String) (v : JsonVal) : FilterOp :=
  .opEq key v

/-- Compile a filter object the way `select` does. -/
def selectOps (fs : Filters) : List FilterOp :=
  fs.map (fun p => selectFilterOp p.1 p.2)

/-- Compile a filter object the way `update` does. -/
def updateOps (fs : Filters) : List FilterOp :=
  fs.map (fun p => updateFilterOp p.1 p.2)

/-- Store-side equality between a row cell and a filter value.  Comparing
a column against an array value (which only the `update` path can
produce) matches no row. -/
def scalarEqVal (cell : Scalar) (v : JsonVal) : Bool :=
  match v with
  | .scalar s => cell == s
  | .arr _ => false

/-- Does a row satisfy one compiled constraint?  A missing or null column
satisfies nothing, as in SQL. -/
def opHolds (r : Row) : FilterOp → Bool
  | .opIn k vs => match rowGet r k with
    | some c => vs.contains c
    | none => false
  | .opIlike k pat => match rowGet r k with
    | some (.sStr s) => ilikeMatch pat s
    | _ => false
  | .opEq k v => match rowGet r k with
    | some c => scalarEqVal c v
    | none => false

/-- Conjunction of all compiled constraints (filters are ANDed). -/
def rowMatchesOps (ops : List FilterOp) (r : Row) : Bool :=
  ops.all (opHolds r)

/-- Parse the `columns` argument of `select`: `"*"` keeps the whole row,
otherwise a comma-separated list of column names (whitespace-trimmed). -/
def parseColumns (columns : String) : Option (List String) :=
  if columns = "*" then none
  else some ((splitCharList ',' columns.data).map (fun cs => String.mk (trimChars cs)))

/-- Project a returned row onto the selected columns. -/
def projectCols (columns : String) (r : Row) : Row :=
  match parseColumns columns with
  | none => r
  | some ks => r.filter (fun p => ks.contains p.1)

/-- Total comparison on scalars standing in for the store's
implementation-defined ordering; no claim depends on its choice. -/
def scalarRank : Scalar → Nat
  | .sNull => 0
  | .sBool _ => 1
  | .sNum _ => 2
  | .sStr _ => 3

/-- Comparison on scalars used by `applyOrder`. -/
def scalarLe : Scalar → Scalar → Bool
  | .sBool b₁, .sBool b₂ => !b₁ || b₂
  | .sNum n₁, .sNum n₂ => decide (n₁ ≤ n₂)
  | .sStr s₁, .sStr s₂ => decide (s₁ ≤ s₂)
  | a, b => decide (scalarRank a ≤ scalarRank b)

/-- Comparison on optional scalars (missing columns sort first). -/
def optScalarLe : Option Scalar → Option Scalar → Bool
  | none, _ => true
  | some _, none => false
  | some a, some b => scalarLe a b

/-- Insertion into a sorted list, for the stable sort below. -/
def insertBy (le : Row → Row → Bool) (x : Row) : List Row → List Row
  | [] => [x]
  | y :: ys => if le x y then x :: y :: ys else y :: insertBy le x ys

/-- Stable insertion sort standing in for the store's ordering. -/
def sortBy (le : Row → Row → Bool) (l : List Row) : List Row :=
  l.foldr (insertBy le) []

/-- Ordering step of `select` (`supabaseRls.ts` lines 48–51): the
specification string is split at `:`; the direction is descending exactly
when the second field is `desc`. -/
def applyOrder (orderBy : Option String) (rows : List Row) : List Row :=
  match orderBy with
  | none => rows
  | some spec =>
    let parts := jsSplit ':' spec
    let column := parts.headD ""
    let ascending := parts[1]? != some "desc"
    let sorted := sortBy (fun r₁ r₂ => optScalarLe (rowGet r₁ column) (rowGet r₂ column)) rows
    if ascending then sorted else sorted.reverse

/-- Options object of `select`. -/
structure SelectOptions where
  orderBy : Option String
  limit : Option Int
  offset : Option Int

/-- The empty options object (no ordering, no pagination). -/
def noOptions : SelectOptions := ⟨none, none, none⟩

/-- Effective pagination parameters `(limit, offset)` the client sends to
the store (`supabaseRls.ts` lines 54–59), `none` when no pagination URL
parameters are set at all.  The JS guards are truthiness tests:
`if (options?.limit)` enters the block for any non-zero limit and calls
`.limit(limit)` (parameters `limit, 0`), and `if (options?.offset)` then
calls `.range(offset, offset + limit - 1)` for any non-zero offset, which
overrides them with parameters
`(offset + limit - 1) - offset + 1 = limit` and `offset`. -/
def pageParams (limit offset : Option Int) : Option (Int × Int) :=
  match limit with
  | none => none
  | some l =>
    if l ≠ 0 then
      match offset with
      | some o => if o ≠ 0 then some (l, o) else some (l, 0)
      | none => some (l, 0)
    else none

/-- Row window the store serves for the nonnegative pagination parameters
its error checks admit (negative parameters make the store report an
error instead; see `rlsSelectE`). -/
def applyPage (limit offset : Option Int) (rows : List Row) : List Row :=
  match pageParams limit offset with
  | none => rows
  | some (l, o) => (rows.drop o.toNat).take l.toNat

/-- `SupabaseRlsHelper.select` (`supabaseRls.ts` lines 22–68) on the
store's non-error region (in particular whenever no pagination parameters
are sent, the only form the code under proof uses): filter with the
select classification, order, paginate, and project the columns. -/
def rlsSelect (tbl : List Row) (columns : String) (filters : Filters)
    (options : SelectOptions) : List Row :=
  (applyPage options.limit options.offset
    (applyOrder options.orderBy
      (tbl.filter (rowMatchesOps (selectOps filters))))).map (projectCols columns)

/-- `SupabaseRlsHelper.select` including the store's rejection of
negative pagination parameters: PostgREST answers Postgres error 2201W
(`LIMIT must not be negative`) or 2201X (`OFFSET must not be negative`),
which the helper rethrows as `Database query failed: …`; with admissible
parameters it returns exactly the rows of `rlsSelect`. -/
def rlsSelectE (tbl : List Row) (columns : String) (filters : Filters)
    (options : SelectOptions) : Except String (List Row) :=
  match pageParams options.limit options.offset with
  | none => Except.ok (rlsSelect tbl columns filters options)
  | some (l, o) =>
    if l < 0 then Except.error "Database query failed: LIMIT must not be negative"
    else if o < 0 then Except.error "Database query failed: OFFSET must not be negative"
    else Except.ok (rlsSelect tbl columns filters options)

/-- `SupabaseRlsHelper.insert` (`supabaseRls.ts` lines 73–85): append the
row; inserting one row returns exactly one row, so its `.single()` call
succeeds (store-side constraint and policy failures are outside the model,
visibility being folded into the table value). -/
def rlsInsert (tbl : List Row) (row : Row) : Except String Row × List Row :=
  (Except.ok row, tbl ++ [row])

/-- `SupabaseRlsHelper.update` (`supabaseRls.ts` lines 90–109): apply the
patch to every row matching the equality-classified filters, then request
the result via `.select().single()` — which reports an error unless
exactly one row matched; otherwise the helper throws
`Database update failed: …` and the store rolls the request back. -/
def rlsUpdate (tbl : List Row) (patch : List (String × Scalar)) (fs : Filters) :
    Except String Row × List Row :=
  match tbl.filter (rowMatchesOps (updateOps fs)) with
  | [r] =>
    (Except.ok (applyPatch patch r),
     tbl.map (fun x => if rowMatchesOps (updateOps fs) x then applyPatch patch x else x))
  | _ =>
    (Except.error "Database update failed: JSON object requested, multiple (or no) rows returned",
     tbl)

/-- `SupabaseRlsHelper.delete` (`supabaseRls.ts` lines 114–146).  The
method applies its filters with `query.eq` BEFORE calling `.delete()`,
but in supabase-js v2 `from(table)` exposes no `.eq`, so the
`typeof (query as any).eq === 'function'` guard (lines 124–129) fails and
the method throws `query.eq is not a function` on the FIRST entry of
every non-empty filter object — before any store operation is issued; the
table is untouched.  Only an empty filter object reaches
`.delete().select()`, which removes every visible row and returns the
first deleted row or `null` (no `.single()`, so an empty result is not an
error). -/
def rlsDelete (tbl : List Row) (fs : Filters) :
    Except String (Option Row) × List Row :=
  match fs with
  | [] => (Except.ok tbl.head?, [])
  | _ :: _ => (Except.error "query.eq is not a function", tbl)

/-- `getAccessTokenFromRequest` (`supabaseRls.ts` lines 193–195) and the
identical inline extraction of `protectUser` / `protectAdmin`:
`req.headers.authorization?.split(" ")[1]`. -/
def getAccessTokenFromRequest (authHeader : Option String) : Option String :=
  authHeader.bind (fun h => (jsSplit ' ' h)[1]?)

/-- Extractor mandated by the specification, for comparison: `Some(token)`
exactly when the header is `"Bearer <token>"` with a non-empty token. -/
def bearerSpecExtract (authHeader : Option String) : Option String :=
  authHeader.bind (fun h =>
    if h.data.take 7 == "Bearer ".data ∧ h.data.drop 7 ≠ [] then
      some (String.mk (h.data.drop 7))
    else none)

/-- Authenticated principal as the identity provider reports it.  The
`tokenRoleClaim` field models authorization data carried inside the token
itself, which the middleware must never consult. -/
structure Principal where
  id : String
  email : String
  tokenRoleClaim : Option String

/-- Result of the identity provider's token check (`supabase.auth.getUser`). -/
inductive TokenRes where
  | invalid
  | valid (p : Principal)

/-- Outcome of the admin gate: which response the middleware sends, or
`proceed` with the role it attached to the request. -/
inductive AdminGateOutcome where
  | tokenMissing
  | tokenInvalid
  | profileMissing
  | forbidden
  | proceed (attachedRole : Option Scalar)
deriving DecidableEq

/-- `protectAdmin` (`protectAdmin.ts` lines 63–106): extract the bearer
token (`!token` also rejects an empty string), resolve it with the
identity provider, read the caller's role freshly from the `users` table
through an RLS-scoped select, answer 404 when no user row exists and 403
when the stored role is not `admin`. -/
def protectAdmin (authHeader : Option String) (resolve : String → TokenRes)
    (users : List Row) : AdminGateOutcome :=
  match getAccessTokenFromRequest authHeader with
  | none => .tokenMissing
  | some tok =>
    if tok = "" then .tokenMissing
    else
      match resolve tok with
      | .invalid => .tokenInvalid
      | .valid p =>
        match (rlsSelect users "role" [("id", .scalar (.sStr p.id))] noOptions).head? with
        | none => .profileMissing
        | some u =>
          if rowGet u "role" ≠ some (.sStr "admin") then .forbidden
          else .proceed (rowGet u "role")

/-- Outcome of one raw notification insert at the store boundary:
the insert succeeds, the client reports an error object, or the call
throws. -/
inductive InsertOutcome where
  | ok
  | errNull
  | thrown

/-- Environment for the notification side effect of a toggle: whether the
admin lookup or the liker lookup inside the notification block throws, and
the store outcome of each notification insert attempt. -/
structure NotifPlan where
  adminSelectFails : Bool
  userSelectFails : Bool
  insertOutcome : Nat → InsertOutcome

/-- The quiet environment: every notification-related operation succeeds. -/
def planOk : NotifPlan := ⟨false, false, fun _ => .ok⟩

/-- JS truthiness of a possibly missing scalar. -/
def jsTruthy : Option Scalar → Bool
  | some (.sStr s) => s != ""
  | some (.sNum n) => decide (n ≠ 0)
  | some (.sBool b) => b
  | some .sNull => false
  | none => false

/-- JS `a || b` on possibly missing scalars. -/
def jsOrScalar (a b : Option Scalar) : Option Scalar :=
  if jsTruthy a then a else b

/-- Template-literal rendering of a possibly missing scalar
(`${x}` prints `null` / `undefined` for those values). -/
def jsTemplate : Option Scalar → String
  | some (.sStr s) => s
  | some (.sNum n) => toString n
  | some (.sBool b) => cond b "true" "false"
  | some .sNull => "null"
  | none => "undefined"

/-- JS `n || null` for an optional numeric argument (note `0` is falsy). -/
def jsNumOrNull : Option Int → Scalar
  | some n => if n = 0 then .sNull else .sNum n
  | none => .sNull

/-- JS `s || null` for an optional string argument (note `""` is falsy). -/
def jsStrOrNull : Option String → Scalar
  | some s => if s = "" then .sNull else .sStr s
  | none => .sNull

/-- The row `createNotification` inserts (`notificationHelper.ts` lines
16–28); the wall-clock `created_at` column is outside the model. -/
def notifRowFor (userId : Scalar) (title message ty : String)
    (relatedPostId relatedCommentId : Option Int) (relatedUserId : Option String) : Row :=
  [("user_id", userId), ("title", .sStr title), ("message", .sStr message),
   ("type", .sStr ty), ("is_read", .sBool false),
   ("related_post_id", jsNumOrNull relatedPostId),
   ("related_comment_id", jsNumOrNull relatedCommentId),
   ("related_user_id", jsStrOrNull relatedUserId)]

/-- `createNotification` (`notificationHelper.ts` lines 4–42): attempt the
insert; a reported store error returns `null`, and the surrounding
`try`/`catch` turns a thrown exception into `null` as well, so the
function itself always returns (`Except.ok`).  The result pairs the value
returned to the caller with the notifications table afterwards. -/
def createNotificationRun (outcome : InsertOutcome) (userId : Scalar)
    (title message ty : String) (relatedPostId relatedCommentId : Option Int)
    (relatedUserId : Option String) (notifs : List Row) :
    Except String (Option Row × List Row) :=
  let row := notifRowFor userId title message ty relatedPostId relatedCommentId relatedUserId
  Except.ok (match outcome with
    | .ok => (some row, notifs ++ [row])
    | .errNull => (none, notifs)
    | .thrown => (none, notifs))

/-- The notification loop of the like branch (`likes.ts` lines 88–99):
one `createNotification` per admin row.  `createNotification` never
throws, so the loop always completes; the `.error` arm is unreachable and
conservatively keeps the notifications already inserted. -/
def notifLoop (plan : NotifPlan) (pid : Int) (uid : String) (message : String) :
    Nat → List Row → List Row → List Row
  | _, [], notifs => notifs
  | k, admin :: rest, notifs =>
    match createNotificationRun (plan.insertOutcome k) (rowGetD admin "id" .sNull)
        "New Like" message "like" (some pid) none (some uid) notifs with
    | .ok (_, notifs₂) => notifLoop plan pid uid message (k + 1) rest notifs₂
    | .error _ => notifs

/-- The notification block of the like branch (`likes.ts` lines 77–105):
select the admin users and the liker's user row through the RLS client,
build the message, and notify every admin; the whole block is wrapped in
`try`/`catch`, so a failing lookup leaves the notifications table as it
was and never surfaces to the toggle. -/
def notifEffect (plan : NotifPlan) (pid : Int) (uid : String) (s_users : List Row)
    (notifs : List Row) : List Row :=
  if plan.adminSelectFails then notifs
  else
    let admins := rlsSelect s_users "id" [("role", .scalar (.sStr "admin"))] noOptions
    if admins.isEmpty then notifs
    else if plan.userSelectFails then notifs
    else
      let userRows := rlsSelect s_users "name, username" [("id", .scalar (.sStr uid))] noOptions
      match userRows.head? with
      | none => notifs
      | some userData =>
        let message :=
          jsTemplate (jsOrScalar (rowGet userData "name") (rowGet userData "username"))
            ++ " liked a post"
        notifLoop plan pid uid message 0 admins notifs

/-- Visible database state for one caller: the rows of `blog_posts`,
`post_likes`, `users` and `notifications` that the bound credential can
see and write. -/
structure DbState where
  posts : List Row
  postLikes : List Row
  users : List Row
  notifications : List Row
deriving DecidableEq

/-- Business error thrown by the toggle handler. -/
inductive ToggleErr where
  | notFoundErr
  | databaseErr
deriving DecidableEq

/-- Success payload of the toggle (`data` of the JSON response). -/
structure ToggleOk where
  isLiked : Bool
  likeCount : Int
deriving DecidableEq

/-- Store operation issued by the primary flow of the toggle, in issue
order (notification-block operations are modelled by `notifEffect`). -/
inductive StoreOp where
  | readPost (pid : Int)
  | readMembership (pid : Int) (uid : String)
  | writeMembershipDelete (pid : Int) (uid : String)
  | writeMembershipInsert (pid : Int) (uid : String)
  | writeCounter (pid : Int) (newCount : Int)
deriving DecidableEq

/-- Result of one toggle call: handler outcome, next state, issued trace. -/
structure ToggleOut where
  result : Except ToggleErr ToggleOk
  state : DbState
  trace : List StoreOp

/-- The membership row the toggle inserts (`likes.ts` lines 63–66). -/
def likeRow (pid : Int) (uid : String) : Row :=
  [("post_id", .sNum pid), ("user_id", .sStr uid)]

/-- JS `likes || 0` on the selected post row: a number stays itself
(`0 || 0` is `0`), null or a missing column becomes `0`. -/
def jsNumOr0 : Option Scalar → Int
  | some (.sNum n) => n
  | _ => 0

/-- The membership filter of the toggle, used for the `post_likes` read
and delete (`likes.ts` lines 39–42 and 49–52). -/
def memFilter (pid : Int) (uid : String) : Filters :=
  [("post_id", .scalar (.sNum pid)), ("user_id", .scalar (.sStr uid))]

/-- The post filter of the toggle (`likes.ts` lines 30 and 56–58; the
route passes the id as a validated numeric string which the store coerces
to the integer column). -/
def postFilter (pid : Int) : Filters :=
  [("id", .scalar (.sNum pid))]

/-- `POST /likes/:postId` (`likes.ts` lines 12–123), after parameter
validation: check the post exists (else `NotFoundError`), read the
membership row, then either delete-the-membership-and-decrement
(floored at zero) or insert-the-membership-and-increment; store failures
surface as `DatabaseError` through the route's catch.  Because the
delete helper throws client-side on its (non-empty) membership filter,
the unlike branch always aborts at the `supabaseRls.delete` call —
before the counter update — leaving the state untouched; the `.ok` arm
of its dispatch transcribes the remaining source text and is
unreachable.  The notification block runs only on a successful like. -/
def toggle (pid : Int) (uid : String) (plan : NotifPlan) (s : DbState) : ToggleOut :=
  match (rlsSelect s.posts "id, likes" (postFilter pid) noOptions).head? with
  | none => ⟨.error .notFoundErr, s, [.readPost pid]⟩
  | some currentPost =>
    let currentLikeCount : Int := jsNumOr0 (rowGet currentPost "likes")
    if (rlsSelect s.postLikes "id" (memFilter pid uid) noOptions).isEmpty then
      let inserted := rlsInsert s.postLikes (likeRow pid uid)
      let newLikeCount := currentLikeCount + 1
      let upd := rlsUpdate s.posts [("likes", .sNum newLikeCount)] (postFilter pid)
      ⟨(match upd.1 with
        | .error _ => .error .databaseErr
        | .ok _ => .ok ⟨true, newLikeCount⟩),
       ⟨upd.2, inserted.2, s.users,
        (match upd.1 with
         | .error _ => s.notifications
         | .ok _ => notifEffect plan pid uid s.users s.notifications)⟩,
       [.readPost pid, .readMembership pid uid,
        .writeMembershipInsert pid uid, .writeCounter pid newLikeCount]⟩
    else
      let deleted := rlsDelete s.postLikes (memFilter pid uid)
      match deleted.1 with
      | .error _ =>
        ⟨.error .databaseErr, ⟨s.posts, deleted.2, s.users, s.notifications⟩,
         [.readPost pid, .readMembership pid uid]⟩
      | .ok _ =>
        let newLikeCount := max (currentLikeCount - 1) 0
        let upd := rlsUpdate s.posts [("likes", .sNum newLikeCount)] (postFilter pid)
        ⟨(match upd.1 with
          | .error _ => .error .databaseErr
          | .ok _ => .ok ⟨false, newLikeCount⟩),
         ⟨upd.2, deleted.2, s.users, s.notifications⟩,
         [.readPost pid, .readMembership pid uid,
          .writeMembershipDelete pid uid, .writeCounter pid newLikeCount]⟩

/-- Iterated sequential toggles by the same user on the same post. -/
def toggleN (pid : Int) (uid : String) (plan : NotifPlan) : Nat → DbState → DbState
  | 0, s => s
  | n + 1, s => (toggle pid uid plan (toggleN pid uid plan n s)).state

/-- Row predicate of the toggle's post lookup. -/
def postFilterB (pid : Int) : Row → Bool :=
  rowMatchesOps (selectOps (postFilter pid))

/-- Row predicate of the toggle's membership lookup. -/
def memFilterB (pid : Int) (uid : String) : Row → Bool :=
  rowMatchesOps (selectOps (memFilter pid uid))

/-- Observed like counter of a post: the `likes` column of its row. -/
def likeCounterObs (pid : Int) (s : DbState) : Option Scalar :=
  ((s.posts.filter (postFilterB pid)).head?).bind (fun r => rowGet r "likes")

/-- Observed like state of `(post, user)`: does a membership row match the
toggle's own lookup? -/
def isLikedObs (pid : Int) (uid : String) (s : DbState) : Bool :=
  ! (s.postLikes.filter (memFilterB pid uid)).isEmpty

/-- Membership and counter writes of a trace, in issue order. -/
def primaryWrites (tr : List StoreOp) : List StoreOp :=
  tr.filter (fun op =>
    match op with
    | .writeMembershipDelete _ _ => true
    | .writeMembershipInsert _ _ => true
    | .writeCounter _ _ => true
    | _ => false)

/-- Filter values on which all three classifications agree: scalars that
are not wildcard-bearing strings. -/
def scalarPlain : JsonVal → Bool
  | .arr _ => false
  | .scalar (.sStr s) => ! strContainsPct s
  | .scalar _ => true

/-- Fixture: a state with no visible rows at all. -/
def sEmpty : DbState := ⟨[], [], [], []⟩

/-- Fixture: a resolver accepting every token as a principal whose token
even carries an `admin` role claim (which the gate must ignore). -/
def resolveStub : String → TokenRes :=
  fun _ => TokenRes.valid ⟨"u1", "user1@example.com", some "admin"⟩

/-- Fixture: post 1 already liked by user `u`, counter 1. -/
def sLiked : DbState :=
  ⟨[[("id", .sNum 1), ("likes", .sNum 1)]],
   [[("post_id", .sNum 1), ("user_id", .sStr "u")]], [], []⟩

/-- Fixture: post 1 not liked, counter 0, no users. -/
def sFresh : DbState :=
  ⟨[[("id", .sNum 1), ("likes", .sNum 0)]], [], [], []⟩

/-- Fixture: an admin user row. -/
def adminRow (i : String) : Row :=
  [("id", .sStr i), ("role", .sStr "admin"), ("name", .sStr "Admin"), ("username", .sStr i)]

/-- Fixture: the liking user's row. -/
def likerRow : Row :=
  [("id", .sStr "u1"), ("role", .sStr "user"), ("name", .sStr "Bob"), ("username", .sStr "bob")]

/-- Fixture: post 7 not yet liked, two visible admin users. -/
def sTwoAdmins : DbState :=
  ⟨[[("id", .sNum 7), ("likes", .sNum 0)]], [],
   [adminRow "a1", adminRow "a2", likerRow], []⟩

/-- Fixture: post 7 not yet liked, exactly one visible admin user. -/
def sOneAdmin : DbState :=
  ⟨[[("id", .sNum 7), ("likes", .sNum 0)]], [],
   [adminRow "a1", likerRow], []⟩

/-! ## General lemmas about the embedding -/

/-- With no options, `select` is filter-then-project. -/
theorem rlsSelect_eq_filter_map (tbl : List Row) (cols : String) (fs : Filters) :
    rlsSelect tbl cols fs noOptions
      = (tbl.filter (rowMatchesOps (selectOps fs))).map (projectCols cols) := rfl

/-! ## C3 — filter-value classification across select / update / delete -/

/-- C3 counterexample: the claim that select, update and delete apply the
same value classification fails on an array-valued filter entry — `select`
compiles it to a membership test (`.in`) while `update` compiles it to an
equality test (`.eq`). -/
theorem classifier_disagreement_cex :
    selectFilterOp "id" (JsonVal.arr [Scalar.sNum 1])
      ≠ updateFilterOp "id" (JsonVal.arr [Scalar.sNum 1]) := by
  decide

/-- C3 (amended): the value classification is applied only by `select`;
`update` interprets every filter entry as an equality test, so the two
compile the same per-key constraint exactly for plain scalar values (no
array, no wildcard-bearing string); `delete` applies no classification at
all — on any non-empty filter object it throws `query.eq is not a
function` client-side before issuing any store operation, leaving the
table untouched. -/
theorem classifier_agreement :
    (∀ k v, scalarPlain v = true → selectFilterOp k v = updateFilterOp k v)
    ∧ (∀ fs : Filters, (∀ kv ∈ fs, scalarPlain kv.2 = true) →
        selectOps fs = updateOps fs)
    ∧ (∀ (tbl : List Row) (kv : String × JsonVal) (fs₂ : Filters),
        (rlsDelete tbl (kv :: fs₂)).1 = Except.error "query.eq is not a function"
        ∧ (rlsDelete tbl (kv :: fs₂)).2 = tbl) := by
  have hsel : ∀ k v, scalarPlain v = true → selectFilterOp k v = updateFilterOp k v := by
    intro k v hv
    cases v with
    | arr xs => simp [scalarPlain] at hv
    | scalar c =>
      cases c with
      | sStr s =>
        have : strContainsPct s = false := by
          simpa [scalarPlain] using hv
        simp [selectFilterOp, updateFilterOp, this]
      | sNull => rfl
      | sBool b => rfl
      | sNum n => rfl
  refine ⟨hsel, ?_, fun tbl kv fs₂ => ⟨rfl, rfl⟩⟩
  intro fs hfs
  unfold selectOps updateOps
  exact List.map_congr_left (fun kv hkv => hsel kv.1 kv.2 (hfs kv hkv))

/-- C3 witness: a concrete plain scalar filter classifies identically in
select and update, and a concrete delete with a non-empty filter throws
without touching the table. -/
theorem classifier_agreement_witness :
    selectFilterOp "id" (JsonVal.scalar (Scalar.sNum 5))
        = updateFilterOp "id" (JsonVal.scalar (Scalar.sNum 5))
    ∧ selectOps [("status", JsonVal.scalar (Scalar.sStr "published"))]
        = updateOps [("status", JsonVal.scalar (Scalar.sStr "published"))]
    ∧ (rlsDelete [[("id", Scalar.sNum 4)]]
        [("id", JsonVal.scalar (Scalar.sNum 4))]).1
        = Except.error "query.eq is not a function" :=
  ⟨classifier_agreement.1 "id" (JsonVal.scalar (Scalar.sNum 5)) (by decide),
   classifier_agreement.2.1 [("status", JsonVal.scalar (Scalar.sStr "published"))]
     (by decide),
   (classifier_agreement.2.2 [[("id", Scalar.sNum 4)]]
     ("id", JsonVal.scalar (Scalar.sNum 4)) []).1⟩

/-! ## C2 — update/delete on a filter matching zero visible rows -/

/-- C2 counterexample: with a filter matching zero visible rows, both
operations do raise — `update` raises a store-level error (its
`.select().single()` requests exactly one returned row) and `delete`
throws `query.eq is not a function` client-side — contrary to the claim
that neither raises and both return an empty/absent result. -/
theorem update_zero_rows_raises_cex :
    ([[("id", Scalar.sNum 2)]] : List Row).filter
        (rowMatchesOps (updateOps [("id", JsonVal.scalar (Scalar.sNum 1))])) = []
    ∧ (rlsUpdate [[("id", Scalar.sNum 2)]] [("likes", Scalar.sNum 0)]
        [("id", JsonVal.scalar (Scalar.sNum 1))]).1.isOk = false
    ∧ (rlsDelete [[("id", Scalar.sNum 2)]]
        [("id", JsonVal.scalar (Scalar.sNum 1))]).1
        = Except.error "query.eq is not a function" := by
  decide

/-- C2 (amended): with a filter matching zero visible rows, `update`
raises a store-level error (its `.single()` call requires exactly one
matched row) and leaves the table unchanged, and `delete` — for any
non-empty filter object, zero matches included — raises the client-side
error `query.eq is not a function` before any store operation and leaves
the table unchanged; neither returns an empty/absent result. -/
theorem zero_rows_update_delete (tbl : List Row) (patch : List (String × Scalar))
    (fs : Filters) (h : tbl.filter (rowMatchesOps (updateOps fs)) = []) :
    (rlsUpdate tbl patch fs).1.isOk = false
    ∧ (rlsUpdate tbl patch fs).2 = tbl
    ∧ ∀ kv fs₂, fs = kv :: fs₂ →
        (rlsDelete tbl fs).1 = Except.error "query.eq is not a function"
        ∧ (rlsDelete tbl fs).2 = tbl := by
  refine ⟨?_, ?_, ?_⟩
  · simp [rlsUpdate, h, Except.isOk, Except.toBool]
  · simp [rlsUpdate, h]
  · rintro kv fs₂ rfl
    exact ⟨rfl, rfl⟩

/-- C2 witness: the amended behaviour at a concrete one-row table whose
row the filter misses. -/
theorem zero_rows_update_delete_witness :
    (rlsUpdate [[("id", Scalar.sNum 2)]] [("likes", Scalar.sNum 3)]
        [("id", JsonVal.scalar (Scalar.sNum 1))]).1.isOk = false
    ∧ (rlsDelete [[("id", Scalar.sNum 2)]]
        [("id", JsonVal.scalar (Scalar.sNum 1))]).1
        = Except.error "query.eq is not a function" :=
  ⟨(zero_rows_update_delete [[("id", Scalar.sNum 2)]] [("likes", Scalar.sNum 3)]
      [("id", JsonVal.scalar (Scalar.sNum 1))] (by decide)).1,
   ((zero_rows_update_delete [[("id", Scalar.sNum 2)]] [("likes", Scalar.sNum 3)]
      [("id", JsonVal.scalar (Scalar.sNum 1))] (by decide)).2.2
     ("id", JsonVal.scalar (Scalar.sNum 1)) [] rfl).1⟩

/-! ## C10 — pagination truthiness in select -/

/-- C10: a page window takes effect only under a positive limit — an
offset supplied with limit `0` or with no limit sends no pagination
parameters at all; offset `0` with any limit `L` behaves exactly like no
offset, so `select(..., {limit: L, offset: 0})` and
`select(..., {limit: L})` have identical outcomes; and whenever
pagination parameters are sent and the select succeeds (the store rejects
a negative limit with `LIMIT must not be negative`), the limit was
positive. -/
theorem pagination_window (tbl : List Row) (cols : String) (fs : Filters)
    (ord : Option String) (L : Int) :
    (∀ off, rlsSelectE tbl cols fs ⟨ord, none, off⟩
        = rlsSelectE tbl cols fs ⟨ord, none, none⟩)
    ∧ (∀ off, rlsSelectE tbl cols fs ⟨ord, some 0, off⟩
        = rlsSelectE tbl cols fs ⟨ord, none, none⟩)
    ∧ rlsSelectE tbl cols fs ⟨ord, some L, some 0⟩
        = rlsSelectE tbl cols fs ⟨ord, some L, none⟩
    ∧ (∀ (L₂ : Int) (off₂ : Option Int), pageParams (some L₂) off₂ ≠ none →
        (rlsSelectE tbl cols fs ⟨ord, some L₂, off₂⟩).isOk = true → 0 < L₂) := by
  refine ⟨?_, ?_, ?_, ?_⟩
  · intro off
    cases off <;> rfl
  · intro off
    cases off <;> simp [rlsSelectE, pageParams, rlsSelect, applyPage]
  · by_cases hL : L = 0 <;> simp [rlsSelectE, pageParams, hL, rlsSelect, applyPage]
  · intro L₂ off₂ hne hok
    by_cases hL0 : L₂ = 0
    · exact absurd (by cases off₂ <;> simp [pageParams, hL0]) hne
    · by_cases hLneg : L₂ < 0
      · exfalso
        have hfail : (rlsSelectE tbl cols fs ⟨ord, some L₂, off₂⟩).isOk = false := by
          cases off₂ with
          | none => simp [rlsSelectE, pageParams, hL0, hLneg, Except.isOk, Except.toBool]
          | some o =>
            by_cases ho : o = 0 <;>
              simp [rlsSelectE, pageParams, hL0, ho, hLneg, Except.isOk, Except.toBool]
        rw [hok] at hfail
        exact Bool.noConfusion hfail
      · omega

/-- C10 witness: offset 0 with limit 5 matches no-offset at a concrete
table, and a sent page window that succeeds has a positive limit. -/
theorem pagination_window_witness :
    rlsSelectE [[("id", Scalar.sNum 1)]] "*" [] ⟨none, some 5, some 0⟩
        = rlsSelectE [[("id", Scalar.sNum 1)]] "*" [] ⟨none, some 5, none⟩
    ∧ (0 : Int) < 5 :=
  ⟨(pagination_window [[("id", Scalar.sNum 1)]] "*" [] none 5).2.2.1,
   (pagination_window [[("id", Scalar.sNum 1)]] "*" [] none 5).2.2.2 5 (some 2)
     (by decide) (by decide)⟩

/-! ## C4 — credential extraction from the authorization header -/

/-- Splitting never yields an empty field list. -/
theorem splitCharList_ne_nil (c : Char) (cs : List Char) : splitCharList c cs ≠ [] := by
  induction cs with
  | nil => simp [splitCharList]
  | cons x xs ih =>
    simp only [splitCharList]
    cases hs : splitCharList c xs with
    | nil => simp
    | cons fld rest =>
      by_cases hx : (x == c) = true <;> simp [hx]

/-- A separator-free character list splits to itself alone. -/
theorem splitCharList_no_sep (c : Char) (cs : List Char) (h : ¬ c ∈ cs) :
    splitCharList c cs = [cs] := by
  induction cs with
  | nil => rfl
  | cons x xs ih =>
    simp only [List.mem_cons, not_or] at h
    have hxc : (x == c) = false := by
      cases hbe : x == c
      · rfl
      · exact absurd (eq_of_beq hbe).symm h.1
    simp [splitCharList, ih h.2, hxc]

/-- Splitting at the first separator occurrence. -/
theorem splitCharList_append (c : Char) (xs ys : List Char) (h : ¬ c ∈ xs) :
    splitCharList c (xs ++ c :: ys) = xs :: splitCharList c ys := by
  induction xs with
  | nil =>
    obtain ⟨fld, rest, hs⟩ : ∃ fld rest, splitCharList c ys = fld :: rest := by
      cases hs : splitCharList c ys with
      | nil => exact absurd hs (splitCharList_ne_nil c ys)
      | cons fld rest => exact ⟨fld, rest, rfl⟩
    simp [splitCharList, hs]
  | cons x xs ih =>
    simp only [List.mem_cons, not_or] at h
    have hxc : (x == c) = false := by
      cases hbe : x == c
      · rfl
      · exact absurd (eq_of_beq hbe).symm h.1
    simp only [List.cons_append, splitCharList]
    simp [ih h.2, hxc]

/-- C4 counterexample: the extractor returns the word after the first
space without inspecting the scheme, so a non-`Bearer` header yields
`some` where the specified pattern-matching extractor yields `none`. -/
theorem extractor_scheme_unchecked_cex :
    getAccessTokenFromRequest (some "Basic abc") = some "abc"
    ∧ bearerSpecExtract (some "Basic abc") = none := by
  decide

/-- C4 (amended): the extractor returns the second space-separated field
of the header whenever one exists, regardless of the scheme word, and
`none` when the header is absent or contains no space; in particular a
well-formed `Bearer <token>` header with a space-free token yields the
token.  (The middleware separately treats an empty extracted token as
missing.) -/
theorem extractor_amended :
    getAccessTokenFromRequest none = none
    ∧ (∀ h : String, ¬ ' ' ∈ h.data → getAccessTokenFromRequest (some h) = none)
    ∧ (∀ scheme t : String, ¬ ' ' ∈ scheme.data → ¬ ' ' ∈ t.data →
        getAccessTokenFromRequest (some (scheme ++ " " ++ t)) = some t) := by
  refine ⟨rfl, ?_, ?_⟩
  · intro h hs
    simp [getAccessTokenFromRequest, jsSplit, splitCharList_no_sep ' ' h.data hs]
  · intro scheme t hs ht
    have hdata : (scheme ++ " " ++ t).data = scheme.data ++ ' ' :: t.data := by
      rw [String.data_append, String.data_append]
      simp [String.data]
    show (jsSplit ' ' (scheme ++ " " ++ t))[1]? = some t
    unfold jsSplit
    rw [hdata, splitCharList_append ' ' scheme.data t.data hs,
      splitCharList_no_sep ' ' t.data ht]
    rfl

/-- C4 witness: the amended statement at concrete headers. -/
theorem extractor_amended_witness :
    getAccessTokenFromRequest (some ("Bearer" ++ " " ++ "tok123")) = some "tok123"
    ∧ getAccessTokenFromRequest (some "Basic") = none :=
  ⟨extractor_amended.2.2 "Bearer" "tok123" (by decide) (by decide),
   extractor_amended.2.1 "Basic" (by decide)⟩

/-! ## C7 — toggling a like on a missing or policy-hidden post -/

/-- C7: when no visible `blog_posts` row matches the post id, the toggle
fails with `NotFound` and the final state is exactly the initial one — no
membership row is created and no counter is touched. -/
theorem toggle_missing_post (pid : Int) (uid : String) (plan : NotifPlan) (s : DbState)
    (h : s.posts.filter (postFilterB pid) = []) :
    (toggle pid uid plan s).result = .error .notFoundErr
    ∧ (toggle pid uid plan s).state = s := by
  have hsel : rlsSelect s.posts "id, likes" (postFilter pid) noOptions = [] := by
    rw [rlsSelect_eq_filter_map]
    have hf : s.posts.filter (rowMatchesOps (selectOps (postFilter pid))) = [] := h
    rw [hf]; rfl
  constructor <;> simp [toggle, hsel]

/-- C7 witness: toggling post 9 in a state with no visible posts. -/
theorem toggle_missing_post_witness :
    (toggle 9 "u" planOk sEmpty).result = .error .notFoundErr
    ∧ (toggle 9 "u" planOk sEmpty).state = sEmpty :=
  toggle_missing_post 9 "u" planOk sEmpty (by decide)

/-! ## C5 — membership write precedes counter write -/

/-- C5 counterexample: at a state where the post exists and the user
already likes it (the execution reaches the write phase), the delete
helper throws client-side, the handler fails with `DatabaseError`, and NO
membership or counter write is issued at all — so the claimed
membership-write-then-counter-write sequence does not occur. -/
theorem membership_write_cex :
    sLiked.posts.filter (postFilterB 1) ≠ []
    ∧ (toggle 1 "u" planOk sLiked).result = Except.error ToggleErr.databaseErr
    ∧ primaryWrites (toggle 1 "u" planOk sLiked).trace = [] := by
  decide

/-- C5 (amended): in every execution of the toggle that reaches the write
phase, a counter write is never issued before (or without) a membership
write: when no membership row exists, the writes issued are exactly the
membership insert followed by the counter write, in that order; when a
membership row exists, the delete helper's client-side failure aborts the
handler before ANY store write — membership delete and counter write
alike — is issued. -/
theorem toggle_membership_write_order (pid : Int) (uid : String) (plan : NotifPlan)
    (s : DbState) (h : s.posts.filter (postFilterB pid) ≠ []) :
    ((rlsSelect s.postLikes "id" (memFilter pid uid) noOptions).isEmpty = true →
      ∃ n, primaryWrites (toggle pid uid plan s).trace
        = [StoreOp.writeMembershipInsert pid uid, StoreOp.writeCounter pid n])
    ∧ ((rlsSelect s.postLikes "id" (memFilter pid uid) noOptions).isEmpty = false →
      primaryWrites (toggle pid uid plan s).trace = []) := by
  obtain ⟨r, rest, hr⟩ : ∃ r rest, s.posts.filter (postFilterB pid) = r :: rest := by
    cases hc : s.posts.filter (postFilterB pid) with
    | nil => exact absurd hc h
    | cons a l => exact ⟨a, l, rfl⟩
  have hsel : (rlsSelect s.posts "id, likes" (postFilter pid) noOptions).head?
      = some (projectCols "id, likes" r) := by
    rw [rlsSelect_eq_filter_map]
    have hf : s.posts.filter (rowMatchesOps (selectOps (postFilter pid))) = r :: rest := hr
    rw [hf]; rfl
  constructor
  · intro hm
    refine ⟨jsNumOr0 (rowGet (projectCols "id, likes" r) "likes") + 1, ?_⟩
    simp [toggle, hsel, hm, primaryWrites]
  · intro hm
    have hdel : rlsDelete s.postLikes (memFilter pid uid)
        = (Except.error "query.eq is not a function", s.postLikes) := rfl
    simp [toggle, hsel, hm, hdel, primaryWrites]

/-- C5 witness: at a concrete fresh state the like path issues the
membership insert and then the counter write. -/
theorem toggle_membership_write_order_witness :
    ∃ n, primaryWrites (toggle 1 "u" planOk sFresh).trace
        = [StoreOp.writeMembershipInsert 1 "u", StoreOp.writeCounter 1 n] :=
  (toggle_membership_write_order 1 "u" planOk sFresh (by decide)).1 (by decide)

/-! ## C6 — the role gate -/

/-- C6: for a request whose bearer token resolves to a valid principal,
the admin gate answers `profileMissing` (404) when the RLS-scoped lookup
of the caller's `users` row is empty, answers `forbidden` (403) when the
row exists but its stored role is not `admin`, and its outcome is entirely
independent of the resolver's principal beyond its id — in particular of
any role claim carried inside the token. -/
theorem role_gate (authHeader : Option String) (resolve : String → TokenRes)
    (users : List Row) (t : String) (p : Principal)
    (h1 : getAccessTokenFromRequest authHeader = some t) (h2 : t ≠ "")
    (h3 : resolve t = TokenRes.valid p) :
    (rlsSelect users "role" [("id", JsonVal.scalar (Scalar.sStr p.id))] noOptions = [] →
       protectAdmin authHeader resolve users = .profileMissing)
    ∧ (∀ u rest,
        rlsSelect users "role" [("id", JsonVal.scalar (Scalar.sStr p.id))] noOptions
          = u :: rest →
        rowGet u "role" ≠ some (.sStr "admin") →
        protectAdmin authHeader resolve users = .forbidden)
    ∧ (∀ (resolve₂ : String → TokenRes) (p₂ : Principal),
        resolve₂ t = TokenRes.valid p₂ → p₂.id = p.id →
        protectAdmin authHeader resolve₂ users = protectAdmin authHeader resolve users) := by
  refine ⟨?_, ?_, ?_⟩
  · intro hnil
    simp [protectAdmin, h1, h2, h3, hnil]
  · intro u rest heq hrole
    simp [protectAdmin, h1, h2, h3, heq, hrole]
  · intro resolve₂ p₂ hres hid
    simp [protectAdmin, h1, h2, h3, hres, hid]

/-- C6 witness: a resolved principal with no application user row — even
one whose token claims the `admin` role — gets `profileMissing`. -/
theorem role_gate_witness :
    protectAdmin (some "Bearer tok") resolveStub [] = .profileMissing :=
  (role_gate (some "Bearer tok") resolveStub [] "tok"
      ⟨"u1", "user1@example.com", some "admin"⟩ (by decide) (by decide) rfl).1 rfl

/-! ## C9 — the notification side effect is isolated -/

/-- C9: `createNotification` never throws — for every store outcome
(successful insert, reported error, thrown exception) it returns either
the created notification row or `null` — and the toggle's handler outcome
and its writes to `blog_posts` and `post_likes` are independent of the
entire notification environment. -/
theorem notification_isolation :
    (∀ (o : InsertOutcome) (userId : Scalar) (title message ty : String)
        (rp rc : Option Int) (ru : Option String) (notifs : List Row),
      createNotificationRun o userId title message ty rp rc ru notifs
          = Except.ok (some (notifRowFor userId title message ty rp rc ru),
              notifs ++ [notifRowFor userId title message ty rp rc ru])
      ∨ createNotificationRun o userId title message ty rp rc ru notifs
          = Except.ok (none, notifs))
    ∧ (∀ (pid : Int) (uid : String) (s : DbState) (p₁ p₂ : NotifPlan),
        (toggle pid uid p₁ s).result = (toggle pid uid p₂ s).result
        ∧ (toggle pid uid p₁ s).state.posts = (toggle pid uid p₂ s).state.posts
        ∧ (toggle pid uid p₁ s).state.postLikes
            = (toggle pid uid p₂ s).state.postLikes) := by
  constructor
  · intro o userId title message ty rp rc ru notifs
    cases o
    · exact Or.inl rfl
    · exact Or.inr rfl
    · exact Or.inr rfl
  · intro pid uid s p₁ p₂
    cases hpost : (rlsSelect s.posts "id, likes" (postFilter pid) noOptions).head? with
    | none => refine ⟨?_, ?_, ?_⟩ <;> simp [toggle, hpost]
    | some cp =>
      by_cases hm : (rlsSelect s.postLikes "id" (memFilter pid uid) noOptions).isEmpty <;>
        refine ⟨?_, ?_, ?_⟩ <;> simp [toggle, hpost, hm]

/-! ## Row and filter lemmas supporting the toggle analysis -/

/-- Setting a column makes it readable. -/
theorem rowGet_setCell_self (r : Row) (k : String) (v : Scalar) :
    rowGet (setCell r k v) k = some v := by
  induction r with
  | nil => simp [setCell, rowGet]
  | cons hd tl ih =>
    obtain ⟨k₀, v₀⟩ := hd
    by_cases hk : (k₀ == k) = true
    · simp [setCell, hk, rowGet]
    · simp only [setCell, hk, Bool.false_eq_true, if_false]
      simpa [rowGet, List.find?, hk] using ih

/-- Setting a column leaves the other columns unchanged. -/
theorem rowGet_setCell_ne (r : Row) (k k₂ : String) (v : Scalar) (h : k₂ ≠ k) :
    rowGet (setCell r k v) k₂ = rowGet r k₂ := by
  have hkk : (k == k₂) = false := by
    cases hbe : k == k₂
    · rfl
    · exact absurd (eq_of_beq hbe).symm h
  induction r with
  | nil => simp [setCell, rowGet, List.find?, hkk]
  | cons hd tl ih =>
    obtain ⟨k₀, v₀⟩ := hd
    by_cases hk : (k₀ == k) = true
    · have hk₀ : (k₀ == k₂) = false := by
        rw [eq_of_beq hk]; exact hkk
      simp [setCell, hk, rowGet, List.find?, hkk, hk₀]
    · simp only [setCell, hk, Bool.false_eq_true, if_false]
      by_cases hk₂ : (k₀ == k₂) = true
      · simp [rowGet, List.find?, hk₂]
      · simpa [rowGet, List.find?, hk₂] using ih

/-- Filtering rows by a key predicate preserves the kept columns. -/
theorem rowGet_filter_keys (keep : String → Bool) (r : Row) (k : String)
    (hk : keep k = true) :
    rowGet (r.filter (fun p => keep p.1)) k = rowGet r k := by
  induction r with
  | nil => rfl
  | cons hd tl ih =>
    obtain ⟨k₀, v₀⟩ := hd
    by_cases hkeep : keep k₀ = true
    · by_cases hbe : (k₀ == k) = true
      · simp [List.filter_cons, hkeep, rowGet, List.find?, hbe]
      · simpa [List.filter_cons, hkeep, rowGet, List.find?, hbe] using ih
    · have hbe : (k₀ == k) = false := by
        cases hbe : k₀ == k
        · rfl
        · rw [eq_of_beq hbe] at hkeep; exact absurd hk hkeep
      simpa [List.filter_cons, hkeep, rowGet, List.find?, hbe] using ih

/-- Projection onto `"id, likes"` preserves the `likes` column. -/
theorem rowGet_project_idlikes (r : Row) :
    rowGet (projectCols "id, likes" r) "likes" = rowGet r "likes" := by
  have hparse : parseColumns "id, likes" = some ["id", "likes"] := by decide
  simp only [projectCols, hparse]
  exact rowGet_filter_keys (fun s => (["id", "likes"]).contains s) r "likes" (by decide)

/-- Projection onto `"id, likes"` preserves the `id` column. -/
theorem rowGet_project_idlikes_id (r : Row) :
    rowGet (projectCols "id, likes" r) "id" = rowGet r "id" := by
  have hparse : parseColumns "id, likes" = some ["id", "likes"] := by decide
  simp only [projectCols, hparse]
  exact rowGet_filter_keys (fun s => (["id", "likes"]).contains s) r "id" (by decide)

/-- Mapping a function over the matching rows of a match-free list keeps
it match-free. -/
theorem filter_map_ite_nil {α : Type} (p : α → Bool) (f : α → α) (l : List α)
    (h : l.filter p = []) :
    (l.map (fun x => if p x then f x else x)).filter p = [] := by
  induction l with
  | nil => rfl
  | cons a tl ih =>
    by_cases ha : p a = true
    · rw [List.filter_cons_of_pos ha] at h
      exact absurd h (by simp)
    · rw [List.filter_cons_of_neg (by simp [ha])] at h
      have hb : p a = false := by simpa using ha
      simp only [List.map_cons, hb, Bool.false_eq_true, if_false, List.filter_cons]
      simpa [hb] using ih h

/-- Mapping a function over the matching rows of a single-match list
updates exactly that match, provided the image still matches. -/
theorem filter_map_ite_single {α : Type} (p : α → Bool) (f : α → α) (l : List α)
    (r : α) (h : l.filter p = [r]) (hf : p (f r) = true) :
    (l.map (fun x => if p x then f x else x)).filter p = [f r] := by
  induction l with
  | nil => simp at h
  | cons a tl ih =>
    by_cases ha : p a = true
    · rw [List.filter_cons_of_pos ha] at h
      obtain ⟨rfl, htl⟩ : a = r ∧ tl.filter p = [] := by
        constructor
        · exact (List.cons_eq_cons.mp h).1
        · exact (List.cons_eq_cons.mp h).2
      simp only [List.map_cons, ha, if_true, List.filter_cons_of_pos hf]
      rw [filter_map_ite_nil p f tl htl]
    · rw [List.filter_cons_of_neg (by simp [ha])] at h
      have hb : p a = false := by simpa using ha
      simp only [List.map_cons, hb, Bool.false_eq_true, if_false, List.filter_cons]
      simpa [hb] using ih h

/-- Unfolding `update` when the filter matches exactly one row. -/
theorem rlsUpdate_single (tbl : List Row) (patch : List (String × Scalar))
    (fs : Filters) (r : Row)
    (h : tbl.filter (rowMatchesOps (updateOps fs)) = [r]) :
    rlsUpdate tbl patch fs
      = (Except.ok (applyPatch patch r),
         tbl.map (fun x =>
           if rowMatchesOps (updateOps fs) x then applyPatch patch x else x)) := by
  unfold rlsUpdate
  rw [h]

/-- The post predicate depends only on the `id` column. -/
theorem postFilterB_ext (pid : Int) (r₁ r₂ : Row)
    (h : rowGet r₁ "id" = rowGet r₂ "id") :
    postFilterB pid r₁ = postFilterB pid r₂ := by
  simp [postFilterB, rowMatchesOps, postFilter, selectOps, selectFilterOp, opHolds, h]

/-- The inserted membership row matches the membership predicate. -/
theorem memFilterB_likeRow (pid : Int) (uid : String)
    (hu : strContainsPct uid = false) :
    memFilterB pid uid (likeRow pid uid) = true := by
  simp [memFilterB, rowMatchesOps, memFilter, selectOps, selectFilterOp, hu,
    opHolds, likeRow, rowGet, List.find?, scalarEqVal]

/-- The update predicate of the toggle's counter write is the post
predicate (the id filter value is a plain scalar). -/
theorem updatePred_eq_postFilterB (pid : Int) :
    rowMatchesOps (updateOps (postFilter pid)) = postFilterB pid := rfl

/-- Like step: starting from a visible post row with counter `c` and no
membership row, a toggle returns `Liked` with counter `c + 1`, writes the
incremented counter back, inserts the membership row, leaves `users`
unchanged and applies the notification block. -/
theorem toggle_like_step (pid : Int) (uid : String) (plan : NotifPlan) (s : DbState)
    (r : Row) (c : Int)
    (hp : s.posts.filter (postFilterB pid) = [r])
    (hl : rowGet r "likes" = some (.sNum c))
    (hm : s.postLikes.filter (memFilterB pid uid) = [])
    (hu : strContainsPct uid = false) :
    (toggle pid uid plan s).result = .ok ⟨true, c + 1⟩
    ∧ (toggle pid uid plan s).state.posts.filter (postFilterB pid)
        = [setCell r "likes" (.sNum (c + 1))]
    ∧ (toggle pid uid plan s).state.postLikes.filter (memFilterB pid uid)
        = [likeRow pid uid]
    ∧ (toggle pid uid plan s).state.users = s.users
    ∧ (toggle pid uid plan s).state.notifications
        = notifEffect plan pid uid s.users s.notifications := by
  have hpu : s.posts.filter (rowMatchesOps (updateOps (postFilter pid))) = [r] := by
    rw [updatePred_eq_postFilterB]; exact hp
  have hselp : (rlsSelect s.posts "id, likes" (postFilter pid) noOptions).head?
      = some (projectCols "id, likes" r) := by
    rw [rlsSelect_eq_filter_map]
    have hf : s.posts.filter (rowMatchesOps (selectOps (postFilter pid))) = [r] := hp
    rw [hf]; rfl
  have hcur : jsNumOr0 (rowGet (projectCols "id, likes" r) "likes") = c := by
    rw [rowGet_project_idlikes, hl]; rfl
  have hmem : rlsSelect s.postLikes "id" (memFilter pid uid) noOptions = [] := by
    rw [rlsSelect_eq_filter_map]
    have hf : s.postLikes.filter (rowMatchesOps (selectOps (memFilter pid uid))) = [] := hm
    rw [hf]; rfl
  have hupd := rlsUpdate_single s.posts [("likes", Scalar.sNum (c + 1))] (postFilter pid) r hpu
  have hpatch : applyPatch [("likes", Scalar.sNum (c + 1))] r
      = setCell r "likes" (Scalar.sNum (c + 1)) := rfl
  have hr_true : postFilterB pid r = true := by
    have hrm : r ∈ s.posts.filter (postFilterB pid) := by
      rw [hp]; exact List.mem_singleton.mpr rfl
    exact (List.mem_filter.mp hrm).2
  have hf_true : postFilterB pid (applyPatch [("likes", Scalar.sNum (c + 1))] r) = true := by
    rw [hpatch, postFilterB_ext pid _ r (rowGet_setCell_ne r "likes" "id" _ (by decide))]
    exact hr_true
  have hposts : (s.posts.map (fun x =>
        if rowMatchesOps (updateOps (postFilter pid)) x
        then applyPatch [("likes", Scalar.sNum (c + 1))] x else x)).filter (postFilterB pid)
      = [setCell r "likes" (Scalar.sNum (c + 1))] := by
    rw [updatePred_eq_postFilterB, ← hpatch]
    exact filter_map_ite_single (postFilterB pid)
      (applyPatch [("likes", Scalar.sNum (c + 1))]) s.posts r hp hf_true
  have hlikes : (s.postLikes ++ [likeRow pid uid]).filter (memFilterB pid uid)
      = [likeRow pid uid] := by
    rw [List.filter_append, hm]
    simp [List.filter_cons, memFilterB_likeRow pid uid hu]
  refine ⟨?_, ?_, ?_, ?_, ?_⟩ <;>
    simp only [toggle, hselp, hmem, List.isEmpty_nil, if_true, rlsInsert, hcur, hupd]
  · exact hposts
  · exact hlikes

/-- Unlike attempt: starting from a visible post row when a membership
row exists, the delete helper throws client-side, so the toggle fails
with `DatabaseError`, the state is exactly unchanged, and no membership
or counter write is issued. -/
theorem toggle_unlike_fails (pid : Int) (uid : String) (plan : NotifPlan) (s : DbState)
    (r : Row)
    (hp : s.posts.filter (postFilterB pid) = [r])
    (hm : s.postLikes.filter (memFilterB pid uid) ≠ []) :
    (toggle pid uid plan s).result = .error .databaseErr
    ∧ (toggle pid uid plan s).state = s
    ∧ primaryWrites (toggle pid uid plan s).trace = [] := by
  have hselp : (rlsSelect s.posts "id, likes" (postFilter pid) noOptions).head?
      = some (projectCols "id, likes" r) := by
    rw [rlsSelect_eq_filter_map]
    have hf : s.posts.filter (rowMatchesOps (selectOps (postFilter pid))) = [r] := hp
    rw [hf]; rfl
  obtain ⟨a, l, hml⟩ : ∃ a l, s.postLikes.filter (memFilterB pid uid) = a :: l := by
    cases hc : s.postLikes.filter (memFilterB pid uid) with
    | nil => exact absurd hc hm
    | cons a l => exact ⟨a, l, rfl⟩
  have hmem : rlsSelect s.postLikes "id" (memFilter pid uid) noOptions
      = projectCols "id" a :: l.map (projectCols "id") := by
    rw [rlsSelect_eq_filter_map]
    have hf : s.postLikes.filter (rowMatchesOps (selectOps (memFilter pid uid)))
        = a :: l := hml
    rw [hf]; rfl
  have hdel : rlsDelete s.postLikes (memFilter pid uid)
      = (Except.error "query.eq is not a function", s.postLikes) := rfl
  have htog : toggle pid uid plan s
      = ⟨.error .databaseErr, ⟨s.posts, s.postLikes, s.users, s.notifications⟩,
         [.readPost pid, .readMembership pid uid]⟩ := by
    simp only [toggle, hselp, hmem, List.isEmpty_cons, Bool.false_eq_true, if_false, hdel]
  refine ⟨by rw [htog], ?_, by rw [htog]; rfl⟩
  rw [htog]

/-- After the first like, the state is absorbing: every further toggle
fails inside the delete helper and changes nothing. -/
theorem toggle_absorbed (pid : Int) (uid : String) (plan : NotifPlan) (s : DbState)
    (r : Row) (c : Int)
    (hp : s.posts.filter (postFilterB pid) = [r])
    (hl : rowGet r "likes" = some (.sNum c))
    (hm : s.postLikes.filter (memFilterB pid uid) = [])
    (hu : strContainsPct uid = false) :
    ∀ k : Nat, toggleN pid uid plan (k + 1) s = (toggle pid uid plan s).state := by
  obtain ⟨k1, k2, k3, k4, k5⟩ := toggle_like_step pid uid plan s r c hp hl hm hu
  have habs : (toggle pid uid plan (toggle pid uid plan s).state).state
      = (toggle pid uid plan s).state :=
    (toggle_unlike_fails pid uid plan (toggle pid uid plan s).state
      (setCell r "likes" (Scalar.sNum (c + 1))) k2 (by rw [k3]; simp)).2.1
  intro k
  induction k with
  | zero => rfl
  | succ k ih =>
    have hstep : toggleN pid uid plan (k + 1 + 1) s
        = (toggle pid uid plan (toggleN pid uid plan (k + 1) s)).state := rfl
    rw [hstep, ih, habs]

/-- C1 (amended): starting from any state in which the post's row is
uniquely visible with a numeric counter `c`, the user id carries no
wildcard marker, and `(post, user)` is not in the membership set (state
`NotLiked`): the first toggle succeeds with `Liked` and counter `c + 1`,
and — because the broken delete helper makes every subsequent toggle fail
with `DatabaseError` without touching the state — ANY positive number of
sequential toggles, even or odd, leaves the state `Liked` with the
counter exactly `c + 1`; only zero toggles leave `NotLiked` with the
counter at `c`. -/
theorem toggle_parity (pid : Int) (uid : String) (plan : NotifPlan) (s : DbState)
    (r : Row) (c : Int) (n : Nat)
    (hp : s.posts.filter (postFilterB pid) = [r])
    (hl : rowGet r "likes" = some (.sNum c))
    (hm : s.postLikes.filter (memFilterB pid uid) = [])
    (hu : strContainsPct uid = false) :
    (toggle pid uid plan s).result = .ok ⟨true, c + 1⟩
    ∧ likeCounterObs pid (toggleN pid uid plan (n + 1) s) = some (.sNum (c + 1))
    ∧ isLikedObs pid uid (toggleN pid uid plan (n + 1) s) = true
    ∧ (toggle pid uid plan (toggleN pid uid plan (n + 1) s)).result
        = .error .databaseErr
    ∧ likeCounterObs pid (toggleN pid uid plan 0 s) = some (.sNum c)
    ∧ isLikedObs pid uid (toggleN pid uid plan 0 s) = false := by
  obtain ⟨k1, k2, k3, k4, k5⟩ := toggle_like_step pid uid plan s r c hp hl hm hu
  have habs := toggle_absorbed pid uid plan s r c hp hl hm hu
  have hm1ne : ((toggle pid uid plan s).state).postLikes.filter (memFilterB pid uid)
      ≠ [] := by
    rw [k3]; simp
  have hfail := toggle_unlike_fails pid uid plan (toggle pid uid plan s).state
    (setCell r "likes" (Scalar.sNum (c + 1))) k2 hm1ne
  refine ⟨k1, ?_, ?_, ?_, ?_, ?_⟩
  · rw [habs n]
    simp [likeCounterObs, k2, rowGet_setCell_self]
  · rw [habs n]
    simp [isLikedObs, k3]
  · rw [habs n]
    exact hfail.1
  · simp [toggleN, likeCounterObs, hp, hl]
  · simp [toggleN, isLikedObs, hm]

/-- C1 counterexample: from the claim's best-case starting state —
`NotLiked`, counter 0 — two toggles (an even number) end `Liked` with
counter 1, not `NotLiked` with the counter restored: the like succeeds
and the unlike fails with `DatabaseError` inside the delete helper,
leaving the membership row and incremented counter in place. -/
theorem toggle_parity_cex :
    isLikedObs 1 "u" sFresh = false
    ∧ likeCounterObs 1 sFresh = some (Scalar.sNum 0)
    ∧ isLikedObs 1 "u" (toggleN 1 "u" planOk 2 sFresh) = true
    ∧ likeCounterObs 1 (toggleN 1 "u" planOk 2 sFresh) = some (Scalar.sNum 1)
    ∧ (toggle 1 "u" planOk (toggleN 1 "u" planOk 1 sFresh)).result
        = Except.error ToggleErr.databaseErr := by
  decide

/-- C1 witness: the amended statement at a fresh `NotLiked` state with
counter 0, for two toggles. -/
theorem toggle_parity_witness :
    (toggle 1 "u" planOk sFresh).result = .ok ⟨true, 0 + 1⟩
    ∧ likeCounterObs 1 (toggleN 1 "u" planOk (1 + 1) sFresh) = some (.sNum (0 + 1))
    ∧ isLikedObs 1 "u" (toggleN 1 "u" planOk (1 + 1) sFresh) = true
    ∧ (toggle 1 "u" planOk (toggleN 1 "u" planOk (1 + 1) sFresh)).result
        = .error .databaseErr
    ∧ likeCounterObs 1 (toggleN 1 "u" planOk 0 sFresh) = some (.sNum 0)
    ∧ isLikedObs 1 "u" (toggleN 1 "u" planOk 0 sFresh) = false :=
  toggle_parity 1 "u" planOk sFresh [("id", .sNum 1), ("likes", .sNum 0)] 0 1
    (by decide) (by decide) (by decide) (by decide)

/-- With every insert succeeding, the notification loop adds exactly one
notification per admin row. -/
theorem notifLoop_planOk_length (pid : Int) (uid : String) (msg : String) :
    ∀ (admins : List Row) (k : Nat) (acc : List Row),
      (notifLoop planOk pid uid msg k admins acc).length = acc.length + admins.length := by
  intro admins
  induction admins with
  | nil => intro k acc; simp [notifLoop]
  | cons a rest ih =>
    intro k acc
    have hins : planOk.insertOutcome k = InsertOutcome.ok := rfl
    simp only [notifLoop, hins, createNotificationRun]
    rw [ih]
    simp [Nat.add_assoc, Nat.add_comm 1 rest.length]

/-- With every notification-related operation succeeding and the liker's
user row visible, the like branch emits exactly one notification per
visible admin user. -/
theorem notifEffect_planOk_length (pid : Int) (uid : String) (users notifs : List Row)
    (huser : users.filter
        (rowMatchesOps (selectOps [("id", JsonVal.scalar (Scalar.sStr uid))])) ≠ []) :
    (notifEffect planOk pid uid users notifs).length
      = notifs.length + (users.filter
          (rowMatchesOps (selectOps [("role", JsonVal.scalar (Scalar.sStr "admin"))]))).length := by
  unfold notifEffect
  have ha : planOk.adminSelectFails = false := rfl
  have hb : planOk.userSelectFails = false := rfl
  simp only [ha, hb, Bool.false_eq_true, if_false, rlsSelect_eq_filter_map]
  cases hadmins : users.filter
      (rowMatchesOps (selectOps [("role", JsonVal.scalar (Scalar.sStr "admin"))])) with
  | nil => simp [hadmins]
  | cons a rest =>
    cases huserlist : users.filter
        (rowMatchesOps (selectOps [("id", JsonVal.scalar (Scalar.sStr uid))])) with
    | nil => exact absurd huserlist huser
    | cons u urest =>
      simp only [hadmins, huserlist, List.map_cons, List.isEmpty_cons, Bool.false_eq_true,
        if_false, List.head?_cons]
      rw [notifLoop_planOk_length]
      simp

/-- C8 (amended): in a like-then-unlike pair of sequential toggles (from
a `NotLiked` state with a uniquely visible post row, wildcard-free user
id, the liker's user row visible, and the notification inserts
succeeding), the like succeeds and the unlike attempt fails with
`DatabaseError` inside the broken delete helper, so the pair ends in
state `Liked` with the counter at `c + 1`, NOT restored; notifications
are emitted only on the like transition — exactly one per visible admin
user (hence exactly one when exactly one admin is visible) — and none on
the unlike attempt. -/
theorem like_unlike_pair (pid : Int) (uid : String) (s : DbState) (r : Row) (c : Int)
    (hp : s.posts.filter (postFilterB pid) = [r])
    (hl : rowGet r "likes" = some (.sNum c))
    (hm : s.postLikes.filter (memFilterB pid uid) = [])
    (hu : strContainsPct uid = false)
    (huser : s.users.filter
        (rowMatchesOps (selectOps [("id", JsonVal.scalar (Scalar.sStr uid))])) ≠ []) :
    (toggle pid uid planOk s).result = .ok ⟨true, c + 1⟩
    ∧ (toggle pid uid planOk (toggle pid uid planOk s).state).result
        = .error .databaseErr
    ∧ isLikedObs pid uid ((toggle pid uid planOk (toggle pid uid planOk s).state).state)
        = true
    ∧ likeCounterObs pid ((toggle pid uid planOk (toggle pid uid planOk s).state).state)
        = some (.sNum (c + 1))
    ∧ ((toggle pid uid planOk s).state).notifications.length
        = s.notifications.length + (s.users.filter
            (rowMatchesOps (selectOps [("role", JsonVal.scalar (Scalar.sStr "admin"))]))).length
    ∧ ((toggle pid uid planOk (toggle pid uid planOk s).state).state).notifications
        = ((toggle pid uid planOk s).state).notifications := by
  obtain ⟨k1, k2, k3, k4, k5⟩ := toggle_like_step pid uid planOk s r c hp hl hm hu
  have hm1ne : ((toggle pid uid planOk s).state).postLikes.filter (memFilterB pid uid)
      ≠ [] := by
    rw [k3]; simp
  obtain ⟨m1, m2, m3⟩ := toggle_unlike_fails pid uid planOk
    (toggle pid uid planOk s).state (setCell r "likes" (Scalar.sNum (c + 1))) k2 hm1ne
  refine ⟨k1, m1, ?_, ?_, ?_, ?_⟩
  · rw [m2]
    simp [isLikedObs, k3]
  · rw [m2]
    simp [likeCounterObs, k2, rowGet_setCell_self]
  · rw [k5]
    exact notifEffect_planOk_length pid uid s.users s.notifications huser
  · rw [m2]

/-- C8 counterexample: with two visible admin users, a like-then-unlike
pair emits two notifications (one per admin on the like transition), not
exactly one, and ends `Liked` at counter 1 rather than `NotLiked` with
the counter restored, the unlike having failed in the delete helper. -/
theorem like_unlike_pair_cex :
    sTwoAdmins.notifications.length = 0
    ∧ (toggleN 7 "u1" planOk 2 sTwoAdmins).notifications.length = 2
    ∧ isLikedObs 7 "u1" (toggleN 7 "u1" planOk 2 sTwoAdmins) = true
    ∧ likeCounterObs 7 (toggleN 7 "u1" planOk 2 sTwoAdmins) = some (Scalar.sNum 1) := by
  decide

/-- C8 witness: the amended statement at a concrete one-admin state. -/
theorem like_unlike_pair_witness :
    (toggle 7 "u1" planOk sOneAdmin).result = .ok ⟨true, 0 + 1⟩
    ∧ (toggle 7 "u1" planOk (toggle 7 "u1" planOk sOneAdmin).state).result
        = .error .databaseErr
    ∧ isLikedObs 7 "u1" ((toggle 7 "u1" planOk (toggle 7 "u1" planOk sOneAdmin).state).state)
        = true
    ∧ likeCounterObs 7 ((toggle 7 "u1" planOk (toggle 7 "u1" planOk sOneAdmin).state).state)
        = some (.sNum (0 + 1))
    ∧ ((toggle 7 "u1" planOk sOneAdmin).state).notifications.length
        = sOneAdmin.notifications.length + (sOneAdmin.users.filter
            (rowMatchesOps (selectOps [("role", JsonVal.scalar (Scalar.sStr "admin"))]))).length
    ∧ ((toggle 7 "u1" planOk (toggle 7 "u1" planOk sOneAdmin).state).state).notifications
        = ((toggle 7 "u1" planOk sOneAdmin).state).notifications :=
  like_unlike_pair 7 "u1" sOneAdmin [("id", .sNum 7), ("likes", .sNum 0)] 0
    (by decide) (by decide) (by decide) (by decide) (by decide)
